import Mathlib

/-!
Shallow embedding of the nomination / review / consent core of the
project-loved web backend (src/server/src/router.ts and
src/server/src/routers/anyone.ts).

Database tables are lists of row structures, the external osu! content
collaborator is an oracle function passed to each handler, and every
handler is a pure function from (oracle, acting user, state, request)
to (result, state).  Audit logging (`dbLog`) is modelled by appending
`LogEntry` values to the state's `logs` list; transactions are modelled
by building the post-state and discarding it (returning the pre-state)
when the transaction body throws.
-/

/-- A beatmapset row as cached from the osu! API: ranked status plus the set
of game modes that have at least one beatmap. -/
structure Beatmapset where
  id : Nat
  ranked_status : Int
  game_modes : List Nat
deriving DecidableEq, Repr

/-- `RankedStatus.pending` from loved-bridge; statuses above it are
ranked/approved/qualified/loved. -/
def RankedStatus.pending : Int := 0

/-- A row of the `reviews` table. -/
structure Review where
  id : Nat
  beatmapset_id : Nat
  game_mode : Nat
  reviewer_id : Nat
  score : Int
  reason : String
  reviewed_at : Nat
deriving DecidableEq, Repr

/-- A row of the `submissions` table (`reason = none` marks an open
submission not yet superseded by a review). -/
structure Submission where
  id : Nat
  beatmapset_id : Nat
  game_mode : Nat
  submitter_id : Nat
  reason : Option String
deriving DecidableEq, Repr

/-- Audit records written through `dbLog`, restricted to the payload fields
the spec claims mention. -/
inductive LogEntry
  | mapperConsentCreated (userId : Nat) (consent : Nat) (reason : Option String)
  | mapperConsentUpdated (userId : Nat) (fromConsent toConsent : Nat)
      (fromReason toReason : Option String)
  | mapperConsentBeatmapsetCreated (userId beatmapsetId : Nat) (consent : Nat)
      (reason : Option String)
  | mapperConsentBeatmapsetUpdated (userId beatmapsetId : Nat)
      (fromConsent toConsent : Nat) (fromReason toReason : Option String)
  | mapperConsentBeatmapsetDeleted (userId beatmapsetId : Nat) (consent : Nat)
      (reason : Option String)
  | reviewCreated (review : Review)
  | reviewUpdated (fromReview toReview : Review)
  | submissionDeleted (submission : Submission)
deriving DecidableEq, Repr

/-- `true` exactly on `LogType.reviewUpdated` records. -/
def LogEntry.isReviewUpdated : LogEntry → Bool
  | .reviewUpdated _ _ => true
  | _ => false

/-- `isGameMode` from type-guards: the four supported osu! game modes are
numbered 0 to 3 (router.ts checks `gameMode < 0 || gameMode > 3` at its own
review endpoint, and add-round seeds exactly the modes `[0, 1, 2, 3]`). -/
def isGameMode (gameMode : Nat) : Bool := gameMode < 4

/-- The acting authenticated user: id plus the game modes in which they hold
the captain role (`hasRole(Role.captain, gameMode)`). -/
structure UserCtx where
  id : Nat
  captainModes : List Nat
deriving DecidableEq, Repr

/-- `hasRole(Role.captain, gameMode)` for the acting user. -/
def UserCtx.hasCaptain (u : UserCtx) (gameMode : Nat) : Bool :=
  u.captainModes.contains gameMode

/-- Mutable state touched by the `/review` handler of anyone.ts. -/
structure ReviewState where
  reviews : List Review
  submissions : List Submission
  logs : List LogEntry
  nextReviewId : Nat
deriving DecidableEq, Repr

/-- Request body of `POST /review` after the type guards
(`isInteger`, `isGameMode`, `typeof reason === 'string'`). -/
structure ReviewRequest where
  beatmapsetId : Nat
  gameMode : Nat
  reason : String
  score : Int
deriving DecidableEq, Repr

/-- Outcome of `POST /review`; one constructor per response site of the
handler (422/403 error sites distinguished the way their messages are). -/
inductive ReviewResult
  | invalidGameMode
  | invalidScore
  | forbiddenScore
  | invalidBeatmapsetId
  | beatmapsetAlreadyRanked
  | beatmapsetMissingGameMode
  | ok (review : Review)
deriving DecidableEq, Repr

/-- The review stored for `(beatmapsetId, reviewerId, gameMode)`, as selected
by the handler's first query. -/
def findReview (reviews : List Review) (beatmapsetId gameMode reviewerId : Nat) :
    Option Review :=
  reviews.find? fun r =>
    r.beatmapset_id == beatmapsetId && r.reviewer_id == reviewerId &&
      r.game_mode == gameMode

/-- `deleteExistingSubmission`: removes the acting user's open submission
(`reason IS NULL`) for the key, logging `submissionDeleted` when one existed. -/
def deleteExistingSubmission (st : ReviewState)
    (beatmapsetId gameMode userId : Nat) : ReviewState :=
  match st.submissions.find? (fun s =>
      s.beatmapset_id == beatmapsetId && s.game_mode == gameMode &&
        s.reason.isNone && s.submitter_id == userId) with
  | none => st
  | some sub =>
      { st with
        submissions := st.submissions.filter fun s => s.id != sub.id
        logs := st.logs ++ [LogEntry.submissionDeleted sub] }

/-- `POST /review` from anyone.ts.  `osu` is the content collaborator
(`createOrRefreshBeatmapset` with forced refresh) and `now` the clock. -/
def submitReview (osu : Nat → Option Beatmapset) (user : UserCtx)
    (st : ReviewState) (req : ReviewRequest) (now : Nat) :
    ReviewResult × ReviewState :=
  if !isGameMode req.gameMode then (.invalidGameMode, st)
  else if req.score < -4 || req.score > 3 then (.invalidScore, st)
  else if (req.score == -4 || req.score == 0) && !user.hasCaptain req.gameMode then
    (.forbiddenScore, st)
  else
    let existingReview := findReview st.reviews req.beatmapsetId req.gameMode user.id
    if (req.score == -2 || req.score == 2) &&
        some req.score != existingReview.map (·.score) then
      (.invalidScore, st)
    else
      match osu req.beatmapsetId with
      | none => (.invalidBeatmapsetId, st)
      | some beatmapset =>
        if beatmapset.ranked_status > RankedStatus.pending then
          (.beatmapsetAlreadyRanked, st)
        else if !beatmapset.game_modes.contains req.gameMode then
          (.beatmapsetMissingGameMode, st)
        else
          match existingReview with
          | some existing =>
              let newReview :=
                { existing with
                  reason := req.reason, reviewed_at := now, score := req.score }
              let st1 :=
                { st with
                  reviews := st.reviews.map fun r =>
                    if r.id == existing.id then newReview else r }
              let st2 :=
                if existing.reason != req.reason || existing.score != req.score then
                  { st1 with logs := st1.logs ++ [.reviewUpdated existing newReview] }
                else st1
              (.ok newReview,
                deleteExistingSubmission st2 req.beatmapsetId req.gameMode user.id)
          | none =>
              let newReview : Review :=
                { id := st.nextReviewId
                  beatmapset_id := req.beatmapsetId
                  game_mode := req.gameMode
                  reviewer_id := user.id
                  score := req.score
                  reason := req.reason
                  reviewed_at := now }
              let st1 :=
                { st with
                  reviews := st.reviews ++ [newReview]
                  nextReviewId := st.nextReviewId + 1
                  logs := st.logs ++ [.reviewCreated newReview] }
              (.ok newReview,
                deleteExistingSubmission st1 req.beatmapsetId req.gameMode user.id)

/-- `true` exactly on the success outcome of `POST /review`. -/
def ReviewResult.isOk : ReviewResult → Bool
  | .ok _ => true
  | _ => false

/-- `ConsentValue` from loved-bridge: `no = 0`, `yes = 1`, `unreachable = 2`
(the deprecated value the handler rejects unconditionally). -/
def ConsentValue.unreachable : Nat := 2

/-- A row of the `mapper_consents` table. -/
structure ConsentRow where
  user_id : Nat
  consent : Nat
  consent_reason : Option String
  updated_at : Nat
  updater_id : Nat
deriving DecidableEq, Repr

/-- A row of the `mapper_consent_beatmapsets` table. -/
structure ConsentBeatmapsetRow where
  user_id : Nat
  beatmapset_id : Nat
  consent : Nat
  consent_reason : Option String
deriving DecidableEq, Repr

/-- One entry of the request's `consentBeatmapsets` array. -/
structure ConsentReqBeatmapset where
  beatmapset_id : Nat
  consent : Nat
  consent_reason : Option String
deriving DecidableEq, Repr

/-- Request body of `POST /mapper-consent` after the type guards. -/
structure ConsentRequest where
  user_id : Nat
  consent : Nat
  consent_reason : Option String
  consentBeatmapsets : List ConsentReqBeatmapset
deriving DecidableEq, Repr

/-- Mutable state touched by the `/mapper-consent` handler: the two consent
tables, the `beatmapsets` cache table (only ids matter here), and the audit
log. -/
structure ConsentState where
  mapperConsents : List ConsentRow
  mapperConsentBeatmapsets : List ConsentBeatmapsetRow
  beatmapsets : List Nat
  logs : List LogEntry
deriving DecidableEq, Repr

/-- Outcome of `POST /mapper-consent`; one constructor per response site
(`beatmapsetNotFound` carries the id named in the 404 message, and
`internalError` is the 500 produced by a throw inside the transaction). -/
inductive SetConsentResult
  | unreachableConsent
  | userNotFound
  | forbidden
  | beatmapsetNotFound (beatmapsetId : Nat)
  | internalError
  | ok
deriving DecidableEq, Repr

/-- `beatmapsetIdsAdded` of the handler: ids in the requested consent list
that have no existing consent row for this mapper. -/
def consentBeatmapsetIdsAdded (st : ConsentState) (req : ConsentRequest) :
    List Nat :=
  let currentIds := (st.mapperConsentBeatmapsets.filter
    (fun c => c.user_id == req.user_id)).map (·.beatmapset_id)
  (req.consentBeatmapsets.map (·.beatmapset_id)).filter
    (fun i => !currentIds.contains i)

/-- `beatmapsetIdsRemoved` of the handler: ids with an existing consent row
for this mapper that are absent from the requested list. -/
def consentBeatmapsetIdsRemoved (st : ConsentState) (req : ConsentRequest) :
    List Nat :=
  let currentIds := (st.mapperConsentBeatmapsets.filter
    (fun c => c.user_id == req.user_id)).map (·.beatmapset_id)
  let newIds := req.consentBeatmapsets.map (·.beatmapset_id)
  currentIds.filter (fun i => !newIds.contains i)

/-- The pre-transaction loop over `beatmapsetIdsAdded`: each id is resolved
through `createOrRefreshBeatmapset` (which stores the row into the
`beatmapsets` cache on success); the first unresolvable id aborts the loop
and is returned for the 404 response. -/
def resolveAddedBeatmapsets (osuBeatmapset : Nat → Bool) :
    ConsentState → List Nat → Option Nat × ConsentState
  | st, [] => (none, st)
  | st, i :: rest =>
      if osuBeatmapset i then
        resolveAddedBeatmapsets osuBeatmapset
          { st with beatmapsets :=
              if st.beatmapsets.contains i then st.beatmapsets
              else st.beatmapsets ++ [i] } rest
      else (some i, st)

/-- In-transaction loop logging one `mapperConsentBeatmapsetDeleted` record
per removed id; throws (`none`) when the beatmapset row is missing from the
cache table ("Missing beatmapset for logging consent beatmapset delete") or
when the removed id has no current consent row (the handler's non-null
assertion). -/
def logRemovedConsentBeatmapsets (userId : Nat)
    (currentConsentBeatmapsets : List ConsentBeatmapsetRow) :
    ConsentState → List Nat → Option ConsentState
  | st, [] => some st
  | st, i :: rest =>
      if st.beatmapsets.contains i then
        match currentConsentBeatmapsets.find? (fun c => c.beatmapset_id == i) with
        | some cb =>
            logRemovedConsentBeatmapsets userId currentConsentBeatmapsets
              { st with logs := st.logs ++
                  [.mapperConsentBeatmapsetDeleted userId i cb.consent
                    cb.consent_reason] } rest
        | none => none
      else none

/-- In-transaction loop over the requested per-beatmapset consents: throws
(`none`) when the beatmapset row is missing from the cache table, inserts
and logs `mapperConsentBeatmapsetCreated` when no current row exists, and
updates and logs `mapperConsentBeatmapsetUpdated` only when consent or
reason changed. -/
def upsertConsentBeatmapsets (userId : Nat)
    (currentConsentBeatmapsets : List ConsentBeatmapsetRow) :
    ConsentState → List ConsentReqBeatmapset → Option ConsentState
  | st, [] => some st
  | st, cb :: rest =>
      if st.beatmapsets.contains cb.beatmapset_id then
        match currentConsentBeatmapsets.find?
            (fun c => c.beatmapset_id == cb.beatmapset_id) with
        | none =>
            upsertConsentBeatmapsets userId currentConsentBeatmapsets
              { st with
                mapperConsentBeatmapsets := st.mapperConsentBeatmapsets ++
                  [⟨userId, cb.beatmapset_id, cb.consent, cb.consent_reason⟩]
                logs := st.logs ++ [.mapperConsentBeatmapsetCreated userId
                  cb.beatmapset_id cb.consent cb.consent_reason] } rest
        | some cur =>
            if cur.consent != cb.consent ||
                cur.consent_reason != cb.consent_reason then
              upsertConsentBeatmapsets userId currentConsentBeatmapsets
                { st with
                  mapperConsentBeatmapsets := st.mapperConsentBeatmapsets.map
                    (fun c =>
                      if c.beatmapset_id == cb.beatmapset_id &&
                          c.user_id == userId then
                        ⟨userId, cb.beatmapset_id, cb.consent, cb.consent_reason⟩
                      else c)
                  logs := st.logs ++ [.mapperConsentBeatmapsetUpdated userId
                    cb.beatmapset_id cur.consent cb.consent cur.consent_reason
                    cb.consent_reason] } rest
            else
              upsertConsentBeatmapsets userId currentConsentBeatmapsets st rest
      else none

/-- `POST /mapper-consent` from anyone.ts.  `osuUser` and `osuBeatmapset` are
the content collaborator's resolvers; `actorIsCaptain` is
`hasRole(Role.captain)`.  The transaction is modelled by running its steps on
a copy of the state and returning the pre-transaction state (with the
`internalError` result) when a step throws. -/
def setConsent (osuUser : Nat → Bool) (osuBeatmapset : Nat → Bool)
    (actorId : Nat) (actorIsCaptain : Bool) (st : ConsentState)
    (req : ConsentRequest) (now : Nat) : SetConsentResult × ConsentState :=
  if req.consent == ConsentValue.unreachable then (.unreachableConsent, st)
  else if !osuUser req.user_id then (.userNotFound, st)
  else if req.user_id != actorId && !actorIsCaptain then (.forbidden, st)
  else
    let currentConsent := st.mapperConsents.find?
      (fun c => c.user_id == req.user_id)
    let currentConsentBeatmapsets := st.mapperConsentBeatmapsets.filter
      (fun c => c.user_id == req.user_id)
    let removed := consentBeatmapsetIdsRemoved st req
    match resolveAddedBeatmapsets osuBeatmapset st
        (consentBeatmapsetIdsAdded st req) with
    | (some missingId, st1) => (.beatmapsetNotFound missingId, st1)
    | (none, st1) =>
        let st2 :=
          match currentConsent with
          | none =>
              { st1 with
                mapperConsents := st1.mapperConsents ++
                  [⟨req.user_id, req.consent, req.consent_reason, now, actorId⟩]
                logs := st1.logs ++ [.mapperConsentCreated req.user_id
                  req.consent req.consent_reason] }
          | some cur =>
              if cur.consent != req.consent ||
                  cur.consent_reason != req.consent_reason then
                { st1 with
                  mapperConsents := st1.mapperConsents.map (fun c =>
                    if c.user_id == req.user_id then
                      ⟨req.user_id, req.consent, req.consent_reason, now, actorId⟩
                    else c)
                  logs := st1.logs ++ [.mapperConsentUpdated req.user_id
                    cur.consent req.consent cur.consent_reason
                    req.consent_reason] }
              else st1
        let st3 :=
          if removed.length > 0 then
            { st2 with
              mapperConsentBeatmapsets := st2.mapperConsentBeatmapsets.filter
                (fun c => !(removed.contains c.beatmapset_id &&
                  c.user_id == req.user_id)) }
          else st2
        match logRemovedConsentBeatmapsets req.user_id
            currentConsentBeatmapsets st3 removed with
        | none => (.internalError, st1)
        | some st4 =>
            match upsertConsentBeatmapsets req.user_id
                currentConsentBeatmapsets st4 req.consentBeatmapsets with
            | none => (.internalError, st1)
            | some st5 => (.ok, st5)

/-- `DescriptionState` from loved-bridge. -/
inductive DescriptionState
  | notReviewed
  | reviewed
deriving DecidableEq, Repr

/-- `MetadataState` from loved-bridge (`unchecked` is the initial state). -/
inductive MetadataState
  | unchecked
  | needsChange
  | good
deriving DecidableEq, Repr

/-- A row of the `nominations` table.  New rows take the schema defaults for
every column the insert at `/nomination-submit` does not set. -/
structure Nomination where
  id : Nat
  round_id : Nat
  game_mode : Nat
  beatmapset_id : Nat
  parent_id : Option Nat
  order : Nat
  description : Option String
  description_author_id : Option Nat
  description_state : DescriptionState
  metadata_state : MetadataState
  overwrite_artist : Option String
  overwrite_title : Option String
  moderator_state : Nat
deriving DecidableEq, Repr

/-- A row of the `nomination_assignees` table
(`AssigneeType`: metadata = 0, moderator = 1). -/
structure NominationAssignee where
  nomination_id : Nat
  assignee_id : Nat
  type : Nat
deriving DecidableEq, Repr

/-- A row of the `beatmapset_creators` table. -/
structure CreatorRow where
  beatmapset_id : Nat
  creator_id : Nat
  game_mode : Nat
deriving DecidableEq, Repr

/-- Mutable state touched by the nomination endpoints of router.ts.
`nominationNominators` and `nominationExcludedBeatmaps` hold
`(nomination_id, other_id)` pairs.  `refreshedBeatmapsets` records the ids
passed to the content collaborator's `createOrRefreshBeatmapset(id, true)`
(forced refresh) by `/nomination-edit-metadata`. -/
structure NominationState where
  nominations : List Nomination
  nominationNominators : List (Nat × Nat)
  nominationAssignees : List NominationAssignee
  nominationExcludedBeatmaps : List (Nat × Nat)
  beatmapsetCreators : List CreatorRow
  nextNominationId : Nat
  refreshedBeatmapsets : List Nat
deriving DecidableEq, Repr

/-- Request body of `POST /nomination-submit`. -/
structure NominationSubmitRequest where
  beatmapsetId : Nat
  gameMode : Nat
  roundId : Nat
  parentId : Option Nat
deriving DecidableEq, Repr

/-- Outcome of `POST /nomination-submit`. -/
inductive NominationSubmitResult
  | invalidGameMode
  | invalidParent
  | invalidBeatmapsetId
  | beatmapsetMissingGameMode
  | duplicateNomination
  | ok (nomination : Nomination)
deriving DecidableEq, Repr

/-- `POST /nomination-submit` from router.ts: validates the parent
nomination, resolves the beatmapset, rejects a missing game mode or a
duplicate `(round, mode, beatmapset)`, then inserts the nomination with
`order` = current count of nominations in `(roundId, gameMode)` and inserts
the acting user as nominator. -/
def nominationSubmit (osu : Nat → Option Beatmapset) (userId : Nat)
    (st : NominationState) (req : NominationSubmitRequest) :
    NominationSubmitResult × NominationState :=
  if !isGameMode req.gameMode then (.invalidGameMode, st)
  else if req.parentId.isSome &&
      !st.nominations.any (fun n => some n.id == req.parentId) then
    (.invalidParent, st)
  else
    match osu req.beatmapsetId with
    | none => (.invalidBeatmapsetId, st)
    | some beatmapset =>
      if !beatmapset.game_modes.contains req.gameMode then
        (.beatmapsetMissingGameMode, st)
      else if st.nominations.any (fun n =>
          n.round_id == req.roundId && n.game_mode == req.gameMode &&
            n.beatmapset_id == beatmapset.id) then
        (.duplicateNomination, st)
      else
        let nominationCount := (st.nominations.filter (fun n =>
          n.round_id == req.roundId && n.game_mode == req.gameMode)).length
        let nomination : Nomination :=
          { id := st.nextNominationId
            round_id := req.roundId
            game_mode := req.gameMode
            beatmapset_id := beatmapset.id
            parent_id := req.parentId
            order := nominationCount
            description := none
            description_author_id := none
            description_state := .notReviewed
            metadata_state := .unchecked
            overwrite_artist := none
            overwrite_title := none
            moderator_state := 0 }
        (.ok nomination,
          { st with
            nominations := st.nominations ++ [nomination]
            nominationNominators := st.nominationNominators ++
              [(nomination.id, userId)]
            nextNominationId := st.nextNominationId + 1 })

/-- Extracts the assigned `order` from a `/nomination-submit` outcome. -/
def submitResultOrder : NominationSubmitResult → Option Nat
  | .ok n => some n.order
  | _ => none

/-- Outcome of `DELETE /nomination`. -/
inductive NominationDeleteResult
  | forbidden
  | ok
deriving DecidableEq, Repr

/-- One DELETE statement of the `DELETE /nomination` transaction. -/
inductive DeleteStmt
  | delAssignees (nominationId : Nat)
  | delExcludedBeatmaps (nominationId : Nat)
  | delNominators (nominationId : Nat)
  | delNomination (nominationId : Nat)
deriving DecidableEq, Repr

/-- Effect of one DELETE statement on the state. -/
def applyDeleteStmt (st : NominationState) : DeleteStmt → NominationState
  | .delAssignees nid =>
      { st with nominationAssignees :=
          st.nominationAssignees.filter fun a => a.nomination_id != nid }
  | .delExcludedBeatmaps nid =>
      { st with nominationExcludedBeatmaps :=
          st.nominationExcludedBeatmaps.filter fun e => e.1 != nid }
  | .delNominators nid =>
      { st with nominationNominators :=
          st.nominationNominators.filter fun p => p.1 != nid }
  | .delNomination nid =>
      { st with nominations := st.nominations.filter fun n => n.id != nid }

/-- The statements the `DELETE /nomination` transaction issues, in source
order: assignees, then excluded beatmaps, then nominators, then the
nomination row itself. -/
def deleteNominationStatements (nominationId : Nat) : List DeleteStmt :=
  [.delAssignees nominationId, .delExcludedBeatmaps nominationId,
    .delNominators nominationId, .delNomination nominationId]

/-- `DELETE /nomination` from router.ts: allowed for the god role or for one
of the nomination's nominators, then runs the four DELETE statements in one
transaction. -/
def nominationDelete (userIsGod : Bool) (userId : Nat)
    (st : NominationState) (nominationId : Nat) :
    NominationDeleteResult × NominationState :=
  if !userIsGod &&
      !st.nominationNominators.any (fun p =>
        p.1 == nominationId && p.2 == userId) then
    (.forbidden, st)
  else
    (.ok, (deleteNominationStatements nominationId).foldl applyDeleteStmt st)

/-- The role set `authRoles(req, res)` computed per request in router.ts:
`gameModes` lists modes in which the actor is captain; `news`, `metadata`
and `moderator` are the corresponding role flags. -/
structure Roles where
  gameModes : List Nat
  news : Bool
  metadata : Bool
  moderator : Bool
deriving DecidableEq, Repr

/-- Request body of `POST /nomination-edit-description`. -/
structure EditDescriptionRequest where
  nominationId : Nat
  description : Option String
deriving DecidableEq, Repr

/-- Outcome of `POST /nomination-edit-description`. -/
inductive EditDescriptionResult
  | invalidNomination
  | forbidden
  | forbiddenRemove
  | ok (nomination : Nomination)
deriving DecidableEq, Repr

/-- `POST /nomination-edit-description` from router.ts: editable by a
captain of the nomination's mode while not yet reviewed, or by a news
author if a description already exists; only captains may clear it.  The
update sets description, author attribution, and description state in one
statement. -/
def editDescription (roles : Roles) (userId : Nat) (st : NominationState)
    (req : EditDescriptionRequest) :
    EditDescriptionResult × NominationState :=
  match st.nominations.find? (fun n => n.id == req.nominationId) with
  | none => (.invalidNomination, st)
  | some prev =>
      if !(!(prev.description_state == DescriptionState.reviewed) &&
            roles.gameModes.contains prev.game_mode) &&
          !(prev.description.isSome && roles.news) then
        (.forbidden, st)
      else if !roles.gameModes.contains prev.game_mode &&
          req.description.isNone then
        (.forbiddenRemove, st)
      else
        let newNomination :=
          { prev with
            description := req.description
            description_author_id :=
              if req.description.isNone then none
              else if prev.description.isNone then some userId
              else prev.description_author_id
            description_state :=
              if roles.news && prev.description.isSome &&
                  req.description.isSome then
                DescriptionState.reviewed
              else DescriptionState.notReviewed }
        (.ok newNomination,
          { st with nominations := st.nominations.map fun n =>
              if n.id == req.nominationId then newNomination else n })

/-- Request body of `POST /nomination-edit-metadata`.  `creators = none`
models a request whose `creators` field is absent or fails `isStringArray`;
`some names` models a string array. -/
structure EditMetadataRequest where
  nominationId : Nat
  state : MetadataState
  artist : Option String
  title : Option String
  creators : Option (List String)
deriving DecidableEq, Repr

/-- Outcome of `POST /nomination-edit-metadata`. -/
inductive EditMetadataResult
  | forbidden
  | invalidNomination
  | ok
deriving DecidableEq, Repr

/-- `POST /nomination-edit-metadata` from router.ts: requires the metadata
or news role; only metadata holders run the nomination UPDATE (state `good`
nulls the artist/title overwrites and, when the prior state was
`needsChange`, force-refreshes the beatmapset via the collaborator); the
creator rows for the nomination's `(beatmapset_id, game_mode)` are deleted
unconditionally and re-inserted only from a non-empty string array, each
name resolved through `createOrRefreshUser(name, {byName, storeBanned})`
(modelled total, as banned users are stored). -/
def editMetadata (osuUserByName : String → Nat) (roles : Roles)
    (st : NominationState) (req : EditMetadataRequest) :
    EditMetadataResult × NominationState :=
  if !roles.metadata && !roles.news then (.forbidden, st)
  else
    match st.nominations.find? (fun n => n.id == req.nominationId) with
    | none => (.invalidNomination, st)
    | some nomination =>
        let st1 :=
          if roles.metadata then
            { st with
              refreshedBeatmapsets := st.refreshedBeatmapsets ++
                (if req.state == MetadataState.good &&
                    nomination.metadata_state == MetadataState.needsChange then
                  [nomination.beatmapset_id]
                else [])
              nominations := st.nominations.map fun n =>
                if n.id == req.nominationId then
                  { n with
                    metadata_state := req.state
                    overwrite_artist :=
                      if req.state == MetadataState.good then none
                      else req.artist
                    overwrite_title :=
                      if req.state == MetadataState.good then none
                      else req.title }
                else n }
          else st
        let newCreators : List CreatorRow :=
          match req.creators with
          | some names =>
              if names.length > 0 then
                names.map fun name =>
                  ⟨nomination.beatmapset_id, osuUserByName name,
                    nomination.game_mode⟩
              else []
          | none => []
        (.ok,
          { st1 with beatmapsetCreators :=
              st1.beatmapsetCreators.filter (fun c =>
                !(c.beatmapset_id == nomination.beatmapset_id &&
                  c.game_mode == nomination.game_mode)) ++ newCreators })

/-- A row of the `rounds` table (fields the round listing depends on). -/
structure Round where
  id : Nat
  name : String
  done : Bool
deriving DecidableEq, Repr

/-- A row of the `round_game_modes` table. -/
structure RoundGameMode where
  round_id : Nat
  game_mode : Nat
  voting_threshold : Int
deriving DecidableEq, Repr

/-- Modelled from the spec: the `done` column of a freshly inserted round.
The add-round INSERT sets only `name`, so `done` takes the schema default,
and the database schema is not among the source files; the spec's round
model (a round is created incomplete) fixes that default to false. -/
def roundDoneDefault : Bool := false

/-- State touched by `/add-round` and `/rounds`.  The `rounds` list is kept
in ascending-id order (ids are assigned from `nextRoundId`), matching the
listing query's `ORDER BY rounds.id ASC`. -/
structure RoundState where
  rounds : List Round
  roundGameModes : List RoundGameMode
  nominations : List Nomination
  nextRoundId : Nat
deriving DecidableEq, Repr

/-- `POST /add-round` from router.ts (news-author only, guarded by
middleware): inserts a round named by the fixed placeholder and, for each
game mode 0, 1, 2, 3, one RoundGameMode whose voting threshold is
`accessSetting(defaultVotingThreshold.gameMode) ?? 0`. -/
def addRound (defaultVotingThreshold : Nat → Option Int) (st : RoundState) :
    Nat × RoundState :=
  let roundId := st.nextRoundId
  (roundId,
    { st with
      rounds := st.rounds ++ [⟨roundId, "Unnamed round", roundDoneDefault⟩]
      roundGameModes := st.roundGameModes ++
        [0, 1, 2, 3].map (fun gameMode =>
          (⟨roundId, gameMode, (defaultVotingThreshold gameMode).getD 0⟩ :
            RoundGameMode))
      nextRoundId := roundId + 1 })

/-- One entry of the `GET /rounds` response: a round annotated with its live
nomination count (aggregated across all its game modes). -/
structure RoundWithCount where
  round : Round
  nomination_count : Nat
deriving DecidableEq, Repr

/-- `GET /rounds` from router.ts: annotates every round with its nomination
count, then returns the complete rounds (done, most recent first) and the
incomplete rounds (ascending id). -/
def listRounds (st : RoundState) :
    List RoundWithCount × List RoundWithCount :=
  let rounds := st.rounds.map fun r =>
    RoundWithCount.mk r
      ((st.nominations.filter fun n => n.round_id == r.id).length)
  ((rounds.filter fun r => r.round.done).reverse,
    rounds.filter fun r => !r.round.done)

theorem deleteExistingSubmission_logs (st : ReviewState)
    (beatmapsetId gameMode userId : Nat) :
    ∃ tail, (deleteExistingSubmission st beatmapsetId gameMode userId).logs =
        st.logs ++ tail ∧ tail.any LogEntry.isReviewUpdated = false := by
  unfold deleteExistingSubmission
  cases h : st.submissions.find? fun s =>
      s.beatmapset_id == beatmapsetId && s.game_mode == gameMode &&
        s.reason.isNone && s.submitter_id == userId with
  | none => exact ⟨[], by simp⟩
  | some sub => exact ⟨[LogEntry.submissionDeleted sub], by simp [LogEntry.isReviewUpdated]⟩

/-- C3: re-submitting the deprecated score 2 on top of a stored score of 2 is
not accepted when the beatmapset meanwhile became Loved (ranked status 4):
the handler still rejects with the ranked-status validation error, refuting
the claim that a matching stored score makes the submission accepted. -/
theorem submitReview_deprecated_equal_not_accepted :
    (findReview [⟨1, 10, 0, 7, 2, "r", 0⟩] 10 0 7).map Review.score = some 2 ∧
    (submitReview (fun i => some ⟨i, 4, [0]⟩) ⟨7, []⟩
        ⟨[⟨1, 10, 0, 7, 2, "r", 0⟩], [], [], 2⟩ ⟨10, 0, "r", 2⟩ 5).1 =
      ReviewResult.beatmapsetAlreadyRanked ∧
    ((submitReview (fun i => some ⟨i, 4, [0]⟩) ⟨7, []⟩
        ⟨[⟨1, 10, 0, 7, 2, "r", 0⟩], [], [], 2⟩ ⟨10, 0, "r", 2⟩ 5).1).isOk =
      false := by
  decide

/-- C3 (amended): for a requested score in the deprecated set {-2, 2}, the
handler rejects with the `Invalid score` validation error exactly when the
reviewer's stored review for `(beatmapsetId, gameMode)` does not already hold
that score, and on that rejection the state is unchanged (no review row
written); when the stored score matches, the submission passes the
deprecated-score check and is accepted provided the beatmapset resolves, is
at most pending, and has beatmaps in the requested mode. -/
theorem submitReview_deprecated_score (osu : Nat → Option Beatmapset)
    (user : UserCtx) (st : ReviewState) (req : ReviewRequest) (now : Nat)
    (hmode : isGameMode req.gameMode = true)
    (hdep : req.score = -2 ∨ req.score = 2) :
    ((submitReview osu user st req now).1 = .invalidScore ↔
      (findReview st.reviews req.beatmapsetId req.gameMode user.id).map
        Review.score ≠ some req.score) ∧
    ((findReview st.reviews req.beatmapsetId req.gameMode user.id).map
        Review.score ≠ some req.score →
      (submitReview osu user st req now).2 = st) ∧
    (∀ b, osu req.beatmapsetId = some b → b.ranked_status ≤ RankedStatus.pending →
      b.game_modes.contains req.gameMode = true →
      (findReview st.reviews req.beatmapsetId req.gameMode user.id).map
        Review.score = some req.score →
      ((submitReview osu user st req now).1).isOk = true) := by
  have hrange : ¬(req.score < -4) ∧ ¬(req.score > 3) := by
    rcases hdep with hs | hs <;> rw [hs] <;> exact ⟨by norm_num, by norm_num⟩
  have hcap : (req.score == -4 || req.score == 0) = false := by
    rcases hdep with hs | hs <;> rw [hs] <;> decide
  have hdep2 : (req.score == -2 || req.score == 2) = true := by
    rcases hdep with hs | hs <;> rw [hs] <;> decide
  unfold submitReview
  simp only [hmode, hrange.1, hrange.2, hcap, hdep2, Bool.not_true, Bool.false_and,
    Bool.true_and, decide_False, Bool.or_self, Bool.false_eq_true, if_false,
    decide_eq_false hrange.1, decide_eq_false hrange.2]
  by_cases hex : (findReview st.reviews req.beatmapsetId req.gameMode user.id).map
      Review.score = some req.score
  · simp only [hex, bne_self_eq_false, Bool.false_eq_true, if_false]
    refine ⟨?_, ?_, ?_⟩
    · constructor
      · intro h
        exfalso
        revert h
        cases hosu : osu req.beatmapsetId with
        | none => simp
        | some b =>
          by_cases hr : b.ranked_status > RankedStatus.pending
          · simp [hr]
          · by_cases hg : b.game_modes.contains req.gameMode = true
            · simp only [if_neg hr, hg, Bool.not_true, Bool.false_eq_true, if_false]
              cases hfind : findReview st.reviews req.beatmapsetId req.gameMode user.id with
              | none => rw [hfind] at hex; simp at hex
              | some existing => simp
            · have hg2 : req.gameMode ∉ b.game_modes := by simpa using hg
              simp [hr, hg2]
      · intro h
        exact absurd rfl h
    · intro h
      exact absurd rfl h
    · intro b hosu hr hg _
      rw [hosu]
      simp only [not_lt.mpr hr, hg, Bool.not_true, Bool.false_eq_true, if_false,
        if_neg (not_lt.mpr hr)]
      cases hfind : findReview st.reviews req.beatmapsetId req.gameMode user.id with
      | none => rw [hfind] at hex; simp at hex
      | some existing => simp [ReviewResult.isOk]
  · have hbne : (some req.score !=
        (findReview st.reviews req.beatmapsetId req.gameMode user.id).map
          Review.score) = true := by
      rw [bne_iff_ne]
      exact fun h => hex h.symm
    simp only [hbne, if_true]
    refine ⟨?_, ?_, ?_⟩
    · simp [hex]
    · intro _
      simp
    · intro b _ _ _ h
      exact absurd h hex

/-- C3 witness. -/
theorem submitReview_deprecated_score_witness :
    isGameMode 0 = true ∧ ((2 : Int) = -2 ∨ (2 : Int) = 2) ∧
    ((submitReview (fun i => some ⟨i, 0, [0]⟩) ⟨7, []⟩ ⟨[], [], [], 1⟩
        ⟨10, 0, "r", 2⟩ 5).1 = .invalidScore ↔
      (findReview ([] : List Review) 10 0 7).map Review.score ≠ some 2) := by
  refine ⟨by decide, Or.inr rfl, ?_⟩
  exact (submitReview_deprecated_score (fun i => some ⟨i, 0, [0]⟩) ⟨7, []⟩
    ⟨[], [], [], 1⟩ ⟨10, 0, "r", 2⟩ 5 (by decide) (Or.inr rfl)).1

/-- C4: on the update path of `POST /review` (a review already stored for the
key, request passing validation and beatmapset eligibility), the submission
succeeds, the stored row is rewritten with `reviewed_at = now`, and a
`reviewUpdated` audit record is appended to the log exactly when the score or
the reason actually changed; in particular an identical re-submission (same
score, same reason) succeeds, refreshes `reviewed_at`, and emits no
`reviewUpdated` record. -/
theorem submitReview_update_audit (osu : Nat → Option Beatmapset)
    (user : UserCtx) (st : ReviewState) (req : ReviewRequest) (now : Nat)
    (existing : Review) (b : Beatmapset)
    (hfound : findReview st.reviews req.beatmapsetId req.gameMode user.id =
      some existing)
    (hmode : isGameMode req.gameMode = true)
    (hlo : -4 ≤ req.score) (hhi : req.score ≤ 3)
    (hcap : req.score = -4 ∨ req.score = 0 → user.hasCaptain req.gameMode = true)
    (hdep : req.score = -2 ∨ req.score = 2 → req.score = existing.score)
    (hosu : osu req.beatmapsetId = some b)
    (hranked : b.ranked_status ≤ RankedStatus.pending)
    (hmodes : b.game_modes.contains req.gameMode = true) :
    (submitReview osu user st req now).1 =
      .ok { existing with
            reason := req.reason, reviewed_at := now, score := req.score } ∧
    (submitReview osu user st req now).2.reviews = st.reviews.map (fun r =>
      if r.id == existing.id then
        { existing with
          reason := req.reason, reviewed_at := now, score := req.score }
      else r) ∧
    (((submitReview osu user st req now).2.logs.drop st.logs.length).any
        LogEntry.isReviewUpdated =
      (existing.reason != req.reason || existing.score != req.score)) := by
  have h1 : ¬(req.score < -4) := not_lt.mpr hlo
  have h2 : ¬(req.score > 3) := not_lt.mpr hhi
  have h3 : ((req.score == -4 || req.score == 0) && !user.hasCaptain req.gameMode) =
      false := by
    by_cases hc : req.score = -4 ∨ req.score = 0
    · simp [hcap hc]
    · push_neg at hc
      simp [hc.1, hc.2]
  have h4 : ((req.score == -2 || req.score == 2) &&
      some req.score != Option.map (fun x => x.score) (some existing)) = false := by
    by_cases hc : req.score = -2 ∨ req.score = 2
    · simp [hdep hc]
    · push_neg at hc
      simp [hc.1, hc.2]
  have hranked2 : ¬(b.ranked_status > RankedStatus.pending) := not_lt.mpr hranked
  unfold submitReview
  rw [hosu, hfound]
  simp only [hmode, Bool.not_true, Bool.false_eq_true, if_false,
    decide_eq_false h1, decide_eq_false h2, Bool.or_self, h3, h4,
    if_neg hranked2, hmodes]
  by_cases hch : (existing.reason != req.reason || existing.score != req.score) = true
  · rw [if_pos hch]
    refine ⟨by trivial, ?_, ?_⟩
    · simp only [deleteExistingSubmission]
      split <;> rfl
    · obtain ⟨tail, htail, hany⟩ := deleteExistingSubmission_logs
        { st with
          reviews := st.reviews.map fun r =>
            if r.id == existing.id then
              { existing with
                reason := req.reason, reviewed_at := now, score := req.score }
            else r
          logs := st.logs ++ [.reviewUpdated existing
            { existing with
              reason := req.reason, reviewed_at := now, score := req.score }] }
        req.beatmapsetId req.gameMode user.id
      rw [htail]
      simp only [List.append_assoc, List.drop_left, hch, List.any_append, hany,
        List.any_cons, List.any_nil, Bool.or_false]
      simp [LogEntry.isReviewUpdated]
  · rw [if_neg hch]
    refine ⟨by trivial, ?_, ?_⟩
    · simp only [deleteExistingSubmission]
      split <;> rfl
    · obtain ⟨tail, htail, hany⟩ := deleteExistingSubmission_logs
        { st with
          reviews := st.reviews.map fun r =>
            if r.id == existing.id then
              { existing with
                reason := req.reason, reviewed_at := now, score := req.score }
            else r }
        req.beatmapsetId req.gameMode user.id
      rw [htail]
      simp only [List.drop_left, hany]
      simp only [Bool.not_eq_true] at hch
      rw [hch]

/-- C4 witness. -/
theorem submitReview_update_audit_witness :
    (submitReview (fun i => some ⟨i, 0, [0]⟩) ⟨7, []⟩
        ⟨[⟨1, 10, 0, 7, 1, "r", 0⟩], [], [], 2⟩ ⟨10, 0, "r", 1⟩ 5).1 =
      .ok ⟨1, 10, 0, 7, 1, "r", 5⟩ ∧
    (submitReview (fun i => some ⟨i, 0, [0]⟩) ⟨7, []⟩
        ⟨[⟨1, 10, 0, 7, 1, "r", 0⟩], [], [], 2⟩ ⟨10, 0, "r", 1⟩ 5).2.reviews =
      ([⟨1, 10, 0, 7, 1, "r", 0⟩] : List Review).map (fun r =>
        if r.id == 1 then ⟨1, 10, 0, 7, 1, "r", 5⟩ else r) ∧
    (((submitReview (fun i => some ⟨i, 0, [0]⟩) ⟨7, []⟩
        ⟨[⟨1, 10, 0, 7, 1, "r", 0⟩], [], [], 2⟩ ⟨10, 0, "r", 1⟩ 5).2.logs.drop
          0).any LogEntry.isReviewUpdated =
      ((("r" : String) != "r") || ((1 : Int) != 1))) := by
  exact submitReview_update_audit (fun i => some ⟨i, 0, [0]⟩) ⟨7, []⟩
    ⟨[⟨1, 10, 0, 7, 1, "r", 0⟩], [], [], 2⟩ ⟨10, 0, "r", 1⟩ 5
    ⟨1, 10, 0, 7, 1, "r", 0⟩ ⟨10, 0, [0]⟩ (by decide) (by decide)
    (by norm_num) (by norm_num) (by decide) (by decide) rfl (by decide) (by decide)

theorem resolveAddedBeatmapsets_spec (osuBeatmapset : Nat → Bool)
    (st : ConsentState) (ids : List Nat) :
    (resolveAddedBeatmapsets osuBeatmapset st ids).1 =
      ids.find? (fun i => !osuBeatmapset i) ∧
    (resolveAddedBeatmapsets osuBeatmapset st ids).2.mapperConsents =
      st.mapperConsents ∧
    (resolveAddedBeatmapsets osuBeatmapset st ids).2.mapperConsentBeatmapsets =
      st.mapperConsentBeatmapsets := by
  induction ids generalizing st with
  | nil => simp [resolveAddedBeatmapsets]
  | cons a rest ih =>
    by_cases h : osuBeatmapset a = true
    · simp only [resolveAddedBeatmapsets, h, if_true, List.find?_cons,
        Bool.not_true]
      exact ih _
    · simp only [Bool.not_eq_true] at h
      simp [resolveAddedBeatmapsets, h, List.find?_cons]

/-- C1 counterexample: mapper 7 re-submits their consent list containing
beatmapset 5 with a changed per-beatmapset consent value.  Beatmapset 5 is
not resolvable via the content collaborator (`osuBeatmapset 5 = false`), yet
because 5 already has a consent row it is never validated: the request
succeeds and changes a consent row, refuting both the NotFound rejection and
the zero-rows-changed parts of the claim. -/
theorem setConsent_unresolvable_not_rejected :
    ((fun _ => false : Nat → Bool) 5 = false) ∧
    (setConsent (fun _ => true) (fun _ => false) 7 false
        ⟨[⟨7, 1, none, 0, 7⟩], [⟨7, 5, 1, none⟩], [5], []⟩
        ⟨7, 1, none, [⟨5, 0, none⟩]⟩ 9).1 = SetConsentResult.ok ∧
    (setConsent (fun _ => true) (fun _ => false) 7 false
        ⟨[⟨7, 1, none, 0, 7⟩], [⟨7, 5, 1, none⟩], [5], []⟩
        ⟨7, 1, none, [⟨5, 0, none⟩]⟩ 9).2.mapperConsentBeatmapsets =
      [⟨7, 5, 0, none⟩] ∧
    [⟨7, 5, 0, none⟩] ≠
      ([⟨7, 5, 1, none⟩] : List ConsentBeatmapsetRow) := by
  decide

/-- C1 (amended): every beatmapset newly added by the request (one with no
existing consent row for this mapper) is validated as resolvable via the
content collaborator before any consent write; if any added beatmapset is
unresolvable the whole request is rejected with NotFound naming the first
unresolvable added beatmapset, and no consent row changes.  (Beatmapsets
that already have a consent row are not re-validated via the collaborator;
see the counterexample.) -/
theorem setConsent_added_validated (osuUser osuBeatmapset : Nat → Bool)
    (actorId : Nat) (actorIsCaptain : Bool) (st : ConsentState)
    (req : ConsentRequest) (now k : Nat)
    (h1 : req.consent ≠ ConsentValue.unreachable)
    (h2 : osuUser req.user_id = true)
    (h3 : req.user_id = actorId ∨ actorIsCaptain = true)
    (hk : (consentBeatmapsetIdsAdded st req).find?
      (fun i => !osuBeatmapset i) = some k) :
    (setConsent osuUser osuBeatmapset actorId actorIsCaptain st req now).1 =
      .beatmapsetNotFound k ∧
    (setConsent osuUser osuBeatmapset actorId actorIsCaptain st req
        now).2.mapperConsents = st.mapperConsents ∧
    (setConsent osuUser osuBeatmapset actorId actorIsCaptain st req
        now).2.mapperConsentBeatmapsets = st.mapperConsentBeatmapsets := by
  have h3b : (req.user_id != actorId && !actorIsCaptain) = false := by
    rcases h3 with h | h <;> simp [h]
  have hres := resolveAddedBeatmapsets_spec osuBeatmapset st
    (consentBeatmapsetIdsAdded st req)
  unfold setConsent
  simp only [beq_iff_eq, if_neg h1, h2, Bool.not_true, Bool.false_eq_true,
    if_false, h3b]
  cases hr : resolveAddedBeatmapsets osuBeatmapset st
      (consentBeatmapsetIdsAdded st req) with
  | mk r1 st1 =>
    rw [hr] at hres
    have hr1 : r1 = some k := hres.1.trans hk
    subst hr1
    exact ⟨rfl, hres.2.1, hres.2.2⟩

/-- C1 witness. -/
theorem setConsent_added_validated_witness :
    (setConsent (fun _ => true) (fun _ => false) 7 false ⟨[], [], [], []⟩
        ⟨7, 1, none, [⟨5, 1, none⟩]⟩ 9).1 = .beatmapsetNotFound 5 ∧
    (setConsent (fun _ => true) (fun _ => false) 7 false ⟨[], [], [], []⟩
        ⟨7, 1, none, [⟨5, 1, none⟩]⟩ 9).2.mapperConsents = [] ∧
    (setConsent (fun _ => true) (fun _ => false) 7 false ⟨[], [], [], []⟩
        ⟨7, 1, none, [⟨5, 1, none⟩]⟩ 9).2.mapperConsentBeatmapsets = [] := by
  exact setConsent_added_validated (fun _ => true) (fun _ => false) 7 false
    ⟨[], [], [], []⟩ ⟨7, 1, none, [⟨5, 1, none⟩]⟩ 9 5 (by decide) rfl
    (Or.inl rfl) (by decide)

/-- C2 counterexample: two nominations created back-to-back in `(round 1,
mode 0)` receive orders 0 and 1; after the first is deleted, a third
creation counts one remaining nomination and receives order 1 — equal to
the second's order, so the orders received by successive creations are not
strictly increasing. -/
theorem nominationSubmit_orders_not_strictly_increasing :
    (let osu : Nat → Option Beatmapset := fun i => some ⟨i, 0, [0]⟩
     let st0 : NominationState := ⟨[], [], [], [], [], 1, []⟩
     let r1 := nominationSubmit osu 7 st0 ⟨100, 0, 1, none⟩
     let r2 := nominationSubmit osu 7 r1.2 ⟨200, 0, 1, none⟩
     let d := nominationDelete true 7 r2.2 1
     let r3 := nominationSubmit osu 7 d.2 ⟨300, 0, 1, none⟩
     submitResultOrder r1.1 = some 0 ∧ submitResultOrder r2.1 = some 1 ∧
       submitResultOrder r3.1 = some 1 ∧
       submitResultOrder r2.1 = submitResultOrder r3.1) := by
  decide

/-- C2 (amended): every successful `/nomination-submit` assigns the new
nomination an `order` equal to the count of nominations already stored for
`(roundId, gameMode)`; across creations interleaved with deletions the
orders received are therefore not necessarily strictly increasing (a
deletion lowers the count back onto an already-assigned order — see the
counterexample, where the sequence received is 0, 1, 1). -/
theorem nominationSubmit_order_eq_count (osu : Nat → Option Beatmapset)
    (userId : Nat) (st : NominationState) (req : NominationSubmitRequest)
    (nomination : Nomination)
    (h : (nominationSubmit osu userId st req).1 = .ok nomination) :
    nomination.order = (st.nominations.filter (fun n =>
      n.round_id == req.roundId && n.game_mode == req.gameMode)).length := by
  unfold nominationSubmit at h
  split at h
  · simp at h
  · split at h
    · simp at h
    · split at h
      · simp at h
      · split at h
        · simp at h
        · split at h
          · simp at h
          · simp only at h
            injection h with h2
            subst h2
            rfl

/-- C2 witness. -/
theorem nominationSubmit_order_eq_count_witness :
    (⟨1, 1, 0, 100, none, 0, none, none, .notReviewed, .unchecked, none, none,
        0⟩ : Nomination).order =
      (([] : List Nomination).filter (fun n =>
        n.round_id == 1 && n.game_mode == 0)).length := by
  exact nominationSubmit_order_eq_count (fun i => some ⟨i, 0, [0]⟩) 7
    ⟨[], [], [], [], [], 1, []⟩ ⟨100, 0, 1, none⟩ _ (by decide)

/-- C5: a permitted `DELETE /nomination` issues its four DELETE statements
in source order — assignees, excluded beatmaps, nominators, then the
nomination row — inside one transaction, and afterwards no assignee,
excluded-beatmap, or nominator row references the deleted nomination id,
and the nomination row itself is gone. -/
theorem nominationDelete_cascade (userIsGod : Bool) (userId : Nat)
    (st : NominationState) (nominationId : Nat)
    (h : (nominationDelete userIsGod userId st nominationId).1 = .ok) :
    deleteNominationStatements nominationId =
      [.delAssignees nominationId, .delExcludedBeatmaps nominationId,
        .delNominators nominationId, .delNomination nominationId] ∧
    (∀ a ∈ (nominationDelete userIsGod userId st
        nominationId).2.nominationAssignees, a.nomination_id ≠ nominationId) ∧
    (∀ e ∈ (nominationDelete userIsGod userId st
        nominationId).2.nominationExcludedBeatmaps, e.1 ≠ nominationId) ∧
    (∀ p ∈ (nominationDelete userIsGod userId st
        nominationId).2.nominationNominators, p.1 ≠ nominationId) ∧
    (∀ n ∈ (nominationDelete userIsGod userId st nominationId).2.nominations,
      n.id ≠ nominationId) := by
  by_cases hg : (!userIsGod && !st.nominationNominators.any (fun p =>
      p.1 == nominationId && p.2 == userId)) = true
  · unfold nominationDelete at h
    rw [if_pos hg] at h
    simp at h
  · simp only [Bool.not_eq_true] at hg
    simp only [nominationDelete, hg, Bool.false_eq_true, if_false,
      deleteNominationStatements, List.foldl, applyDeleteStmt]
    refine ⟨by trivial, ?_, ?_, ?_, ?_⟩ <;>
    · intro x hx
      simp only [List.mem_filter, bne_iff_ne] at hx
      exact hx.2

/-- C5 witness. -/
theorem nominationDelete_cascade_witness :
    deleteNominationStatements 1 =
      [.delAssignees 1, .delExcludedBeatmaps 1, .delNominators 1,
        .delNomination 1] ∧
    (∀ a ∈ (nominationDelete true 7
        ⟨[⟨1, 1, 0, 100, none, 0, none, none, .notReviewed, .unchecked, none,
            none, 0⟩], [(1, 7)], [⟨1, 8, 0⟩], [(1, 50)], [], 2, []⟩
        1).2.nominationAssignees, a.nomination_id ≠ 1) ∧
    (∀ e ∈ (nominationDelete true 7
        ⟨[⟨1, 1, 0, 100, none, 0, none, none, .notReviewed, .unchecked, none,
            none, 0⟩], [(1, 7)], [⟨1, 8, 0⟩], [(1, 50)], [], 2, []⟩
        1).2.nominationExcludedBeatmaps, e.1 ≠ 1) ∧
    (∀ p ∈ (nominationDelete true 7
        ⟨[⟨1, 1, 0, 100, none, 0, none, none, .notReviewed, .unchecked, none,
            none, 0⟩], [(1, 7)], [⟨1, 8, 0⟩], [(1, 50)], [], 2, []⟩
        1).2.nominationNominators, p.1 ≠ 1) ∧
    (∀ n ∈ (nominationDelete true 7
        ⟨[⟨1, 1, 0, 100, none, 0, none, none, .notReviewed, .unchecked, none,
            none, 0⟩], [(1, 7)], [⟨1, 8, 0⟩], [(1, 50)], [], 2, []⟩
        1).2.nominations, n.id ≠ 1) := by
  exact nominationDelete_cascade true 7
    ⟨[⟨1, 1, 0, 100, none, 0, none, none, .notReviewed, .unchecked, none,
        none, 0⟩], [(1, 7)], [⟨1, 8, 0⟩], [(1, 50)], [], 2, []⟩ 1 (by decide)

/-- C6: on every successful `/nomination-edit-description`, the resulting
description state is `reviewed` exactly when the actor has the news role,
a description existed before the edit, and the new description is non-null;
in every other successful case the state is `notReviewed`.  The first
non-null description write (previous description null) sets the description
author to the acting user. -/
theorem editDescription_state_and_author (roles : Roles) (userId : Nat)
    (st : NominationState) (req : EditDescriptionRequest) (nom : Nomination)
    (h : (editDescription roles userId st req).1 = .ok nom) :
    ∃ prev, st.nominations.find? (fun n => n.id == req.nominationId) =
        some prev ∧
      (nom.description_state = .reviewed ↔
        (roles.news = true ∧ prev.description ≠ none ∧
          req.description ≠ none)) ∧
      (¬(roles.news = true ∧ prev.description ≠ none ∧
          req.description ≠ none) →
        nom.description_state = .notReviewed) ∧
      (prev.description = none → req.description ≠ none →
        nom.description_author_id = some userId) := by
  unfold editDescription at h
  cases hfind : st.nominations.find? (fun n => n.id == req.nominationId) with
  | none =>
    rw [hfind] at h
    simp at h
  | some prev =>
    rw [hfind] at h
    dsimp only at h
    by_cases hA : ((!(!(prev.description_state == DescriptionState.reviewed) &&
          roles.gameModes.contains prev.game_mode) &&
        !(prev.description.isSome && roles.news)) = true)
    · rw [if_pos hA] at h
      simp at h
    · rw [if_neg hA] at h
      by_cases hB : ((!roles.gameModes.contains prev.game_mode &&
          req.description.isNone) = true)
      · rw [if_pos hB] at h
        simp at h
      · rw [if_neg hB] at h
        dsimp only at h
        injection h with h2
        subst h2
        have hcond : (roles.news && prev.description.isSome &&
            req.description.isSome) = true ↔
            (roles.news = true ∧ prev.description ≠ none ∧
              req.description ≠ none) := by
          simp [Bool.and_eq_true, Option.isSome_iff_ne_none, and_assoc]
        refine ⟨prev, rfl, ?_, ?_, ?_⟩
        · rw [← hcond]
          by_cases hc : (roles.news && prev.description.isSome &&
              req.description.isSome) = true
          · simp [hc]
          · simp [hc]
        · intro hnot
          rw [← hcond] at hnot
          simp only [hnot]
          simp [Bool.not_eq_true] at hnot
          simp [hnot]
        · intro hprev hreq
          have h1 : req.description.isNone = false := by
            cases hd : req.description with
            | none => exact absurd hd hreq
            | some v => rfl
          have h2 : prev.description.isNone = true := by
            simp [Option.isNone_iff_eq_none, hprev]
          simp only [h1, h2, Bool.false_eq_true, if_false, if_true]

/-- C6 witness. -/
theorem editDescription_state_and_author_witness :
    ∃ prev, ([⟨1, 1, 0, 100, none, 0, some "d", some 9, .notReviewed,
        .unchecked, none, none, 0⟩] : List Nomination).find?
          (fun n => n.id == 1) = some prev ∧
      ((⟨1, 1, 0, 100, none, 0, some "e", some 9, .reviewed, .unchecked, none,
          none, 0⟩ : Nomination).description_state = .reviewed ↔
        (true = true ∧ prev.description ≠ none ∧ some "e" ≠ none)) ∧
      (¬(true = true ∧ prev.description ≠ none ∧ some "e" ≠ none) →
        (⟨1, 1, 0, 100, none, 0, some "e", some 9, .reviewed, .unchecked, none,
          none, 0⟩ : Nomination).description_state = .notReviewed) ∧
      (prev.description = none → some "e" ≠ none →
        (⟨1, 1, 0, 100, none, 0, some "e", some 9, .reviewed, .unchecked, none,
          none, 0⟩ : Nomination).description_author_id = some 7) := by
  exact editDescription_state_and_author ⟨[0], true, false, false⟩ 7
    ⟨[⟨1, 1, 0, 100, none, 0, some "d", some 9, .notReviewed, .unchecked,
        none, none, 0⟩], [], [], [], [], 2, []⟩ ⟨1, some "e"⟩ _ (by decide)

/-- C10: every successful `/nomination-edit-description` that clears the
description to null also sets the description author to null, erasing the
prior attribution. -/
theorem editDescription_clear_clears_author (roles : Roles) (userId : Nat)
    (st : NominationState) (req : EditDescriptionRequest) (nom : Nomination)
    (h : (editDescription roles userId st req).1 = .ok nom)
    (hclear : req.description = none) :
    nom.description = none ∧ nom.description_author_id = none := by
  unfold editDescription at h
  cases hfind : st.nominations.find? (fun n => n.id == req.nominationId) with
  | none =>
    rw [hfind] at h
    simp at h
  | some prev =>
    rw [hfind] at h
    dsimp only at h
    by_cases hA : ((!(!(prev.description_state == DescriptionState.reviewed) &&
          roles.gameModes.contains prev.game_mode) &&
        !(prev.description.isSome && roles.news)) = true)
    · rw [if_pos hA] at h
      simp at h
    · rw [if_neg hA] at h
      by_cases hB : ((!roles.gameModes.contains prev.game_mode &&
          req.description.isNone) = true)
      · rw [if_pos hB] at h
        simp at h
      · rw [if_neg hB] at h
        dsimp only at h
        injection h with h2
        subst h2
        have h1 : req.description.isNone = true := by
          simp [Option.isNone_iff_eq_none, hclear]
        simp only [h1, if_true, hclear]
        exact ⟨by trivial, by trivial⟩

/-- C10 witness. -/
theorem editDescription_clear_clears_author_witness :
    (⟨1, 1, 0, 100, none, 0, none, none, .notReviewed, .unchecked, none, none,
        0⟩ : Nomination).description = none ∧
    (⟨1, 1, 0, 100, none, 0, none, none, .notReviewed, .unchecked, none, none,
        0⟩ : Nomination).description_author_id = none := by
  exact editDescription_clear_clears_author ⟨[0], false, false, false⟩ 7
    ⟨[⟨1, 1, 0, 100, none, 0, some "d", some 9, .notReviewed, .unchecked,
        none, none, 0⟩], [], [], [], [], 2, []⟩ ⟨1, none⟩ _ (by decide) rfl

/-- C7: a metadata-role `/nomination-edit-metadata` call that sets the state
to `good` writes null artist/title overwrites regardless of the request's
artist and title values, and force-refreshes the beatmapset from the
content collaborator exactly when the nomination's prior metadata state was
`needsChange`. -/
theorem editMetadata_good_clears_overwrites (osuUserByName : String → Nat)
    (roles : Roles) (st : NominationState) (req : EditMetadataRequest)
    (nomination : Nomination)
    (hmeta : roles.metadata = true)
    (hfound : st.nominations.find? (fun n => n.id == req.nominationId) =
      some nomination)
    (hgood : req.state = .good) :
    (editMetadata osuUserByName roles st req).1 = .ok ∧
    (editMetadata osuUserByName roles st req).2.nominations =
      st.nominations.map (fun n =>
        if n.id == req.nominationId then
          { n with
            metadata_state := MetadataState.good, overwrite_artist := none,
            overwrite_title := none }
        else n) ∧
    (editMetadata osuUserByName roles st req).2.refreshedBeatmapsets =
      st.refreshedBeatmapsets ++
        (if nomination.metadata_state = .needsChange then
          [nomination.beatmapset_id]
        else []) := by
  have hguard : (!roles.metadata && !roles.news) = false := by simp [hmeta]
  unfold editMetadata
  rw [hguard]
  simp only [Bool.false_eq_true, if_false]
  rw [hfound]
  dsimp only
  rw [if_pos hmeta]
  simp only [hgood]
  by_cases hnc : nomination.metadata_state = MetadataState.needsChange
  · simp [hnc]
  · simp [hnc]

/-- C7 witness. -/
theorem editMetadata_good_clears_overwrites_witness :
    (editMetadata (fun _ => 3) ⟨[], false, true, false⟩
        ⟨[⟨1, 1, 0, 100, none, 0, none, none, .notReviewed, .needsChange,
            some "a", some "t", 0⟩], [], [], [], [], 2, []⟩
        ⟨1, .good, some "x", some "y", none⟩).1 = .ok ∧
    (editMetadata (fun _ => 3) ⟨[], false, true, false⟩
        ⟨[⟨1, 1, 0, 100, none, 0, none, none, .notReviewed, .needsChange,
            some "a", some "t", 0⟩], [], [], [], [], 2, []⟩
        ⟨1, .good, some "x", some "y", none⟩).2.nominations =
      ([⟨1, 1, 0, 100, none, 0, none, none, .notReviewed, .needsChange,
          some "a", some "t", 0⟩] : List Nomination).map (fun n =>
        if n.id == 1 then
          { n with
            metadata_state := MetadataState.good, overwrite_artist := none,
            overwrite_title := none }
        else n) ∧
    (editMetadata (fun _ => 3) ⟨[], false, true, false⟩
        ⟨[⟨1, 1, 0, 100, none, 0, none, none, .notReviewed, .needsChange,
            some "a", some "t", 0⟩], [], [], [], [], 2, []⟩
        ⟨1, .good, some "x", some "y", none⟩).2.refreshedBeatmapsets =
      [] ++
        (if (MetadataState.needsChange : MetadataState) = .needsChange then
          [100]
        else []) := by
  exact editMetadata_good_clears_overwrites (fun _ => 3)
    ⟨[], false, true, false⟩
    ⟨[⟨1, 1, 0, 100, none, 0, none, none, .notReviewed, .needsChange,
        some "a", some "t", 0⟩], [], [], [], [], 2, []⟩
    ⟨1, .good, some "x", some "y", none⟩
    ⟨1, 1, 0, 100, none, 0, none, none, .notReviewed, .needsChange, some "a",
      some "t", 0⟩ rfl (by decide) rfl

/-- C9: when the `creators` field is absent, not a string array, or an
empty array, `/nomination-edit-metadata` still deletes every creator row
for the nomination's `(beatmapset_id, game_mode)` and inserts none, leaving
that creator list empty — the delete is unconditional. -/
theorem editMetadata_creators_cleared (osuUserByName : String → Nat)
    (roles : Roles) (st : NominationState) (req : EditMetadataRequest)
    (nomination : Nomination)
    (hrole : roles.metadata = true ∨ roles.news = true)
    (hfound : st.nominations.find? (fun n => n.id == req.nominationId) =
      some nomination)
    (hcre : req.creators = none ∨ req.creators = some []) :
    (editMetadata osuUserByName roles st req).1 = .ok ∧
    (∀ c ∈ (editMetadata osuUserByName roles st req).2.beatmapsetCreators,
      ¬(c.beatmapset_id = nomination.beatmapset_id ∧
        c.game_mode = nomination.game_mode)) := by
  have hguard : (!roles.metadata && !roles.news) = false := by
    rcases hrole with h | h <;> simp [h]
  have hempty : (match req.creators with
      | some names =>
          if names.length > 0 then
            names.map fun name =>
              (⟨nomination.beatmapset_id, osuUserByName name,
                nomination.game_mode⟩ : CreatorRow)
          else []
      | none => []) = ([] : List CreatorRow) := by
    rcases hcre with h | h <;> simp [h]
  unfold editMetadata
  rw [hguard]
  simp only [Bool.false_eq_true, if_false]
  rw [hfound]
  dsimp only
  rw [hempty]
  refine ⟨rfl, ?_⟩
  intro c hc
  simp only [List.append_nil, List.mem_filter, Bool.not_eq_true',
    Bool.and_eq_false_iff] at hc
  rcases hc.2 with h | h
  · intro hcon
    rw [hcon.1] at h
    simp at h
  · intro hcon
    rw [hcon.2] at h
    simp at h

/-- C9 witness. -/
theorem editMetadata_creators_cleared_witness :
    (editMetadata (fun _ => 3) ⟨[], true, false, false⟩
        ⟨[⟨1, 1, 0, 100, none, 0, none, none, .notReviewed, .unchecked, none,
            none, 0⟩], [], [], [], [⟨100, 8, 0⟩, ⟨200, 9, 1⟩], 2, []⟩
        ⟨1, .good, none, none, none⟩).1 = .ok ∧
    (∀ c ∈ (editMetadata (fun _ => 3) ⟨[], true, false, false⟩
        ⟨[⟨1, 1, 0, 100, none, 0, none, none, .notReviewed, .unchecked, none,
            none, 0⟩], [], [], [], [⟨100, 8, 0⟩, ⟨200, 9, 1⟩], 2, []⟩
        ⟨1, .good, none, none, none⟩).2.beatmapsetCreators,
      ¬(c.beatmapset_id = 100 ∧ c.game_mode = 0)) := by
  exact editMetadata_creators_cleared (fun _ => 3) ⟨[], true, false, false⟩
    ⟨[⟨1, 1, 0, 100, none, 0, none, none, .notReviewed, .unchecked, none,
        none, 0⟩], [], [], [], [⟨100, 8, 0⟩, ⟨200, 9, 1⟩], 2, []⟩
    ⟨1, .good, none, none, none⟩
    ⟨1, 1, 0, 100, none, 0, none, none, .notReviewed, .unchecked, none, none,
      0⟩ (Or.inr rfl) (by decide) (Or.inl rfl)

/-- C8: `/add-round` seeds exactly one RoundGameMode per supported game mode
(0, 1, 2, 3) with the configured default voting threshold falling back to
0, and an immediately following `/rounds` lists the new round in the
incomplete group with nomination count 0.  The freshness hypotheses say no
existing row references the not-yet-assigned round id. -/
theorem addRound_seeds_and_lists_incomplete
    (defaultVotingThreshold : Nat → Option Int) (st : RoundState)
    (hfreshModes : ∀ m ∈ st.roundGameModes, m.round_id ≠ st.nextRoundId)
    (hfreshNoms : ∀ n ∈ st.nominations, n.round_id ≠ st.nextRoundId) :
    ((addRound defaultVotingThreshold st).2.roundGameModes.filter
        (fun m => m.round_id == st.nextRoundId) =
      [0, 1, 2, 3].map (fun gameMode =>
        (⟨st.nextRoundId, gameMode,
          (defaultVotingThreshold gameMode).getD 0⟩ : RoundGameMode))) ∧
    (⟨⟨st.nextRoundId, "Unnamed round", false⟩, 0⟩ : RoundWithCount) ∈
      (listRounds (addRound defaultVotingThreshold st).2).2 := by
  constructor
  · show ((st.roundGameModes ++ [0, 1, 2, 3].map (fun gameMode =>
        (⟨st.nextRoundId, gameMode,
          (defaultVotingThreshold gameMode).getD 0⟩ : RoundGameMode))).filter
        (fun m => m.round_id == st.nextRoundId) = _)
    rw [List.filter_append]
    have h1 : st.roundGameModes.filter
        (fun m => m.round_id == st.nextRoundId) = [] := by
      rw [List.filter_eq_nil_iff]
      intro m hm
      simp [hfreshModes m hm]
    have h2 : (([0, 1, 2, 3].map (fun gameMode =>
        (⟨st.nextRoundId, gameMode,
          (defaultVotingThreshold gameMode).getD 0⟩ : RoundGameMode))).filter
        (fun m => m.round_id == st.nextRoundId)) =
        [0, 1, 2, 3].map (fun gameMode =>
          (⟨st.nextRoundId, gameMode,
            (defaultVotingThreshold gameMode).getD 0⟩ : RoundGameMode)) := by
      rw [List.filter_eq_self]
      intro m hm
      simp only [List.mem_map] at hm
      obtain ⟨g, _, rfl⟩ := hm
      simp
    rw [h1, h2, List.nil_append]
  · have hcount : st.nominations.filter
        (fun n => n.round_id == st.nextRoundId) = [] := by
      rw [List.filter_eq_nil_iff]
      intro n hn
      simp [hfreshNoms n hn]
    show (⟨⟨st.nextRoundId, "Unnamed round", false⟩, 0⟩ : RoundWithCount) ∈
      ((st.rounds ++
          ([⟨st.nextRoundId, "Unnamed round", roundDoneDefault⟩] :
            List Round)).map
        (fun r : Round => RoundWithCount.mk r
          ((st.nominations.filter fun n => n.round_id == r.id).length))).filter
        (fun r : RoundWithCount => !r.round.done)
    refine List.mem_filter.mpr ⟨?_, rfl⟩
    rw [List.map_append]
    apply List.mem_append_right
    simp [roundDoneDefault, hcount]

/-- C8 witness. -/
theorem addRound_seeds_and_lists_incomplete_witness :
    ((addRound (fun g => if g == 0 then some 7 else none)
        ⟨[⟨1, "r1", true⟩], [⟨1, 0, 5⟩], [], 2⟩).2.roundGameModes.filter
        (fun m => m.round_id == 2) =
      [0, 1, 2, 3].map (fun gameMode =>
        (⟨2, gameMode,
          ((fun g => if g == 0 then some 7 else none) gameMode |>.getD 0)⟩ :
            RoundGameMode))) ∧
    (⟨⟨2, "Unnamed round", false⟩, 0⟩ : RoundWithCount) ∈
      (listRounds (addRound (fun g => if g == 0 then some 7 else none)
        ⟨[⟨1, "r1", true⟩], [⟨1, 0, 5⟩], [], 2⟩).2).2 := by
  exact addRound_seeds_and_lists_incomplete
    (fun g => if g == 0 then some 7 else none)
    ⟨[⟨1, "r1", true⟩], [⟨1, 0, 5⟩], [], 2⟩ (by decide) (by decide)
